import Mathlib

/-!
Shallow embedding of the dcSCTP packet codec, state cookie, sequence-number
arithmetic, data tracker and verification-tag handling of the WebRTC `dcsctp`
subsystem, with proofs of the specified properties.

Bytes are modelled as `List Nat` with every entry intended to be `< 256`;
multi-byte fields are big-endian as on the wire.
-/

namespace Dcsctp

/-- Big-endian encoding of the low 16 bits of a value, as two bytes. -/
def store16 (v : Nat) : List Nat := [v / 256 % 256, v % 256]

/-- Big-endian encoding of the low 32 bits of a value, as four bytes. -/
def store32 (v : Nat) : List Nat :=
  [v / 16777216 % 256, v / 65536 % 256, v / 256 % 256, v % 256]

/-- Big-endian encoding of the low 64 bits of a value, as eight bytes. -/
def store64 (v : Nat) : List Nat :=
  store32 (v / 4294967296 % 4294967296) ++ store32 (v % 4294967296)

/-- Big-endian decoding of two bytes. -/
def load16 (b0 b1 : Nat) : Nat := b0 * 256 + b1

/-- Big-endian decoding of four bytes. -/
def load32 (b0 b1 b2 b3 : Nat) : Nat := b0 * 16777216 + b1 * 65536 + b2 * 256 + b3

/-- Reads a big-endian 16-bit value at a byte offset (out-of-range bytes read as 0). -/
def load16At (data : List Nat) (off : Nat) : Nat :=
  load16 (data.getD off 0) (data.getD (off + 1) 0)

/-- Reads a big-endian 32-bit value at a byte offset. -/
def load32At (data : List Nat) (off : Nat) : Nat :=
  load32 (data.getD off 0) (data.getD (off + 1) 0) (data.getD (off + 2) 0)
    (data.getD (off + 3) 0)

/-- Reads a big-endian 64-bit value at a byte offset. -/
def load64At (data : List Nat) (off : Nat) : Nat :=
  load32At data off * 4294967296 + load32At data (off + 4)

/-- Number of zero bytes needed to pad `n` bytes to the next 4-byte boundary. -/
def padding4 (n : Nat) : Nat := (4 - n % 4) % 4

/-- Overwrites the bytes of `buf` starting at offset `off` with `bytes`
(the model of a bounded byte writer store). -/
def storeBytesAt (buf : List Nat) (off : Nat) (bytes : List Nat) : List Nat :=
  buf.take off ++ bytes ++ buf.drop (off + bytes.length)

/-- Writes a big-endian 16-bit value at a byte offset of a buffer. -/
def Store16At (buf : List Nat) (off v : Nat) : List Nat := storeBytesAt buf off (store16 v)

/-- Writes a big-endian 32-bit value at a byte offset of a buffer. -/
def Store32At (buf : List Nat) (off v : Nat) : List Nat := storeBytesAt buf off (store32 v)

/-- Declared TLV length of a serialized chunk/parameter/cause: the big-endian
16-bit field at byte offsets 2..3. -/
def declaredLength (data : List Nat) : Nat := load16 (data.getD 2 0) (data.getD 3 0)

/-- Modelled from the spec: the TLV header machinery (`tlv_trait.h`,
`bounded_byte_reader.h`) is not among the analyzed sources, only its callers are.
Per §4.1 every TLV has a big-endian 16-bit type and 16-bit length whose value
excludes padding, and parsing fails (returns empty, never throws) when the
declared length exceeds the available bytes, when it is smaller than the
mandatory header size, or when the trailing padding bytes needed to reach a
4-byte boundary are absent. On success the reader covers the first `length`
declared bytes. -/
def ParseTLV (typ headerSize : Nat) (data : List Nat) : Option (List Nat) :=
  match data with
  | b0 :: b1 :: b2 :: b3 :: _ =>
    let len := load16 b2 b3
    if load16 b0 b1 ≠ typ then none
    else if data.length < headerSize then none
    else if len < headerSize then none
    else if data.length < len then none
    else if data.length < len + padding4 len then none
    else some (data.take len)
  | _ => none

/-- Modelled from the spec: `AllocateTLV` of `tlv_trait.h` /
`bounded_byte_writer.h` is not among the analyzed sources. Per §4.1 it emits
the big-endian type and length (length counts the fixed header plus the
variable data, excluding padding) followed by a zero-filled area covering the
rest of the fixed header, the variable data, and the zero padding up to a
4-byte boundary; the caller then stores its fields into that area. -/
def AllocateTLV (typ headerSize varSize : Nat) : List Nat :=
  store16 typ ++ store16 (headerSize + varSize) ++
    List.replicate (headerSize - 4 + varSize + padding4 (headerSize + varSize)) 0

/-- Copies variable-length data into the variable area of an allocated TLV,
which starts right after the fixed header. -/
def CopyToVariableData (buf : List Nat) (headerSize : Nat) (varData : List Nat) : List Nat :=
  storeBytesAt buf headerSize varData

/-- State Cookie parameter (RFC 4960 §3.3.3.1), type 7: an opaque
variable-length cookie blob, from `state_cookie_parameter.cc`. -/
structure StateCookieParameter where
  data_ : List Nat
deriving DecidableEq, Repr

namespace StateCookieParameter

def kType : Nat := 7
def kHeaderSize : Nat := 4

/-- `StateCookieParameter::Parse`: parses the TLV and takes its variable data. -/
def Parse (data : List Nat) : Option StateCookieParameter :=
  (ParseTLV kType kHeaderSize data).map fun tlv => ⟨tlv.drop kHeaderSize⟩

/-- `StateCookieParameter::SerializeTo`: allocates a TLV sized for the cookie
data and copies the data into the variable area. -/
def SerializeTo (p : StateCookieParameter) : List Nat :=
  CopyToVariableData (AllocateTLV kType kHeaderSize p.data_.length) kHeaderSize p.data_

end StateCookieParameter

/-- Invalid Stream Identifier error cause (RFC 4960 §3.3.10.1), cause code 1,
fixed length 8, from `invalid_stream_identifier_cause.cc`. -/
structure InvalidStreamIdentifierCause where
  stream_id_ : Nat
deriving DecidableEq, Repr

namespace InvalidStreamIdentifierCause

def kType : Nat := 1
def kHeaderSize : Nat := 8

/-- `InvalidStreamIdentifierCause::Parse`: parses the TLV and loads the 16-bit
stream identifier at offset 4; the reserved bytes at offsets 6..7 are ignored. -/
def Parse (data : List Nat) : Option InvalidStreamIdentifierCause :=
  (ParseTLV kType kHeaderSize data).map fun tlv => ⟨load16At tlv 4⟩

/-- `InvalidStreamIdentifierCause::SerializeTo`: allocates the 8-byte TLV (the
reserved area stays zero-filled) and stores the stream identifier at offset 4. -/
def SerializeTo (c : InvalidStreamIdentifierCause) : List Nat :=
  Store16At (AllocateTLV kType kHeaderSize 0) 4 c.stream_id_

end InvalidStreamIdentifierCause

/-- SSN/TSN Reset Request parameter (RFC 6525 §4.3), type 15, fixed length 8,
from `ssn_tsn_reset_request_parameter.cc` (src/unnamed/part_003). -/
structure SSNTSNResetRequestParameter where
  request_sequence_number_ : Nat
deriving DecidableEq, Repr

namespace SSNTSNResetRequestParameter

def kType : Nat := 15
def kHeaderSize : Nat := 8

/-- `SSNTSNResetRequestParameter::Parse`: parses the TLV and loads the 32-bit
re-configuration request sequence number at offset 4. -/
def Parse (data : List Nat) : Option SSNTSNResetRequestParameter :=
  (ParseTLV kType kHeaderSize data).map fun tlv => ⟨load32At tlv 4⟩

/-- `SSNTSNResetRequestParameter::SerializeTo`: allocates the 8-byte TLV and
stores the request sequence number at offset 4. -/
def SerializeTo (p : SSNTSNResetRequestParameter) : List Nat :=
  Store32At (AllocateTLV kType kHeaderSize 0) 4 p.request_sequence_number_

end SSNTSNResetRequestParameter

example : SSNTSNResetRequestParameter.SerializeTo ⟨258⟩ = [0, 15, 0, 8, 0, 0, 1, 2] := by decide

example : SSNTSNResetRequestParameter.Parse [0, 15, 0, 8, 0, 0, 1, 2] = some ⟨258⟩ := by decide

example : InvalidStreamIdentifierCause.SerializeTo ⟨515⟩ = [0, 1, 0, 8, 2, 3, 0, 0] := by decide

example : InvalidStreamIdentifierCause.Parse [0, 1, 0, 8, 2, 3, 9, 9] = some ⟨515⟩ := by decide

example : StateCookieParameter.SerializeTo ⟨[1, 2, 3, 4, 5]⟩ =
    [0, 7, 0, 9, 1, 2, 3, 4, 5, 0, 0, 0] := by decide

example : StateCookieParameter.Parse [0, 7, 0, 9, 1, 2, 3, 4, 5, 0, 0, 0] =
    some ⟨[1, 2, 3, 4, 5]⟩ := by decide

example : StateCookieParameter.Parse [0, 7, 0, 9, 1, 2, 3, 4, 5] = none := by decide

/-- `ParseTLV` returns nothing whenever the declared length exceeds the
available bytes, is smaller than the mandatory header size, or the trailing
padding bytes are absent. -/
theorem ParseTLV_eq_none (typ headerSize : Nat) (data : List Nat)
    (h : data.length < declaredLength data ∨ declaredLength data < headerSize ∨
      data.length < declaredLength data + padding4 (declaredLength data)) :
    ParseTLV typ headerSize data = none := by
  rcases data with _ | ⟨b0, _ | ⟨b1, _ | ⟨b2, _ | ⟨b3, rest⟩⟩⟩⟩
  · rfl
  · rfl
  · rfl
  · rfl
  · simp only [declaredLength, List.getD_cons_succ, List.getD_cons_zero, load16,
      padding4, List.length_cons] at h
    simp only [ParseTLV, load16, padding4, List.length_cons]
    split_ifs <;> first | rfl | (exfalso; omega)

/-- C4: the TLV Parse functions (`StateCookieParameter::Parse`,
`SSNTSNResetRequestParameter::Parse`, `InvalidStreamIdentifierCause::Parse`)
return an empty optional (and, being total functions, never throw or crash)
whenever the declared TLV length exceeds the available bytes, the declared
length is smaller than the mandatory header size (4 for the variable-length
state cookie parameter, 8 for the two fixed-size ones), or the trailing
padding bytes are absent. -/
theorem tlv_parse_fails_closed (data : List Nat) :
    ((data.length < declaredLength data ∨ declaredLength data < 4 ∨
        data.length < declaredLength data + padding4 (declaredLength data)) →
      StateCookieParameter.Parse data = none) ∧
    ((data.length < declaredLength data ∨ declaredLength data < 8 ∨
        data.length < declaredLength data + padding4 (declaredLength data)) →
      SSNTSNResetRequestParameter.Parse data = none) ∧
    ((data.length < declaredLength data ∨ declaredLength data < 8 ∨
        data.length < declaredLength data + padding4 (declaredLength data)) →
      InvalidStreamIdentifierCause.Parse data = none) := by
  refine ⟨fun h => ?_, fun h => ?_, fun h => ?_⟩
  · simp only [StateCookieParameter.Parse, StateCookieParameter.kType,
      StateCookieParameter.kHeaderSize]
    rw [ParseTLV_eq_none 7 4 data h]
    rfl
  · simp only [SSNTSNResetRequestParameter.Parse, SSNTSNResetRequestParameter.kType,
      SSNTSNResetRequestParameter.kHeaderSize]
    rw [ParseTLV_eq_none 15 8 data h]
    rfl
  · simp only [InvalidStreamIdentifierCause.Parse, InvalidStreamIdentifierCause.kType,
      InvalidStreamIdentifierCause.kHeaderSize]
    rw [ParseTLV_eq_none 1 8 data h]
    rfl

/-- Witness for C4: a declared length below the header size, a declared length
exceeding the available bytes, and a declared length below the fixed size are
all rejected. -/
theorem tlv_parse_fails_closed_witness :
    StateCookieParameter.Parse [0, 7, 0, 2] = none ∧
    SSNTSNResetRequestParameter.Parse [0, 15, 0, 12, 0, 0, 0, 0] = none ∧
    InvalidStreamIdentifierCause.Parse [0, 1, 0, 6, 0, 0] = none :=
  ⟨(tlv_parse_fails_closed [0, 7, 0, 2]).1 (by decide),
   (tlv_parse_fails_closed [0, 15, 0, 12, 0, 0, 0, 0]).2.1 (by decide),
   (tlv_parse_fails_closed [0, 1, 0, 6, 0, 0]).2.2 (by decide)⟩

/-- C5: serializing a state cookie parameter with cookie data of any length
emits the TLV header, then the value, then zero bytes padding the value to the
next 4-byte boundary; the declared length field equals header plus value size,
excluding the padding; and the total output size is 4-byte aligned. -/
theorem stateCookieParameter_serialize_padding (d : List Nat) (h : 4 + d.length < 65536) :
    StateCookieParameter.SerializeTo ⟨d⟩ =
      store16 StateCookieParameter.kType ++ store16 (4 + d.length) ++ d ++
        List.replicate (padding4 (4 + d.length)) 0 ∧
    (StateCookieParameter.SerializeTo ⟨d⟩).length % 4 = 0 ∧
    declaredLength (StateCookieParameter.SerializeTo ⟨d⟩) = 4 + d.length := by
  have hser : StateCookieParameter.SerializeTo ⟨d⟩ =
      store16 StateCookieParameter.kType ++ store16 (4 + d.length) ++ d ++
        List.replicate (padding4 (4 + d.length)) 0 := by
    simp only [StateCookieParameter.SerializeTo, CopyToVariableData, AllocateTLV,
      StateCookieParameter.kType, StateCookieParameter.kHeaderSize, storeBytesAt,
      store16, List.cons_append, List.nil_append]
    norm_num [Nat.add_comm 4 d.length, List.drop_replicate]
  refine ⟨hser, ?_, ?_⟩
  · rw [hser]
    simp only [store16, List.length_append, List.length_cons, List.length_nil,
      List.length_replicate, padding4]
    omega
  · rw [hser]
    simp only [declaredLength, store16, List.cons_append, List.nil_append,
      List.getD_cons_succ, List.getD_cons_zero, load16]
    omega

/-- Witness for C5 with a 5-byte cookie blob needing 3 bytes of padding. -/
theorem stateCookieParameter_serialize_padding_witness :
    StateCookieParameter.SerializeTo ⟨[1, 2, 3, 4, 5]⟩ =
      store16 StateCookieParameter.kType ++ store16 9 ++ [1, 2, 3, 4, 5] ++
        List.replicate (padding4 9) 0 ∧
    (StateCookieParameter.SerializeTo ⟨[1, 2, 3, 4, 5]⟩).length % 4 = 0 ∧
    declaredLength (StateCookieParameter.SerializeTo ⟨[1, 2, 3, 4, 5]⟩) = 9 :=
  stateCookieParameter_serialize_padding [1, 2, 3, 4, 5] (by decide)

/-- C9: for every 16-bit stream identifier, `InvalidStreamIdentifierCause`
serializes to exactly 8 bytes whose reserved bytes at offsets 6..7 are zero,
parsing the serialized form yields the same stream identifier, and parsing
with arbitrary values in the reserved bytes still yields the same cause. -/
theorem invalidStreamIdentifierCause_roundtrip (sid : Nat) (h : sid < 65536) :
    InvalidStreamIdentifierCause.SerializeTo ⟨sid⟩ =
      [0, 1, 0, 8, sid / 256 % 256, sid % 256, 0, 0] ∧
    InvalidStreamIdentifierCause.Parse (InvalidStreamIdentifierCause.SerializeTo ⟨sid⟩) =
      some ⟨sid⟩ ∧
    ∀ r6 r7 : Nat,
      InvalidStreamIdentifierCause.Parse
        ((InvalidStreamIdentifierCause.SerializeTo ⟨sid⟩).take 6 ++ [r6, r7]) =
        some ⟨sid⟩ := by
  have hser : InvalidStreamIdentifierCause.SerializeTo ⟨sid⟩ =
      [0, 1, 0, 8, sid / 256 % 256, sid % 256, 0, 0] := by
    simp [InvalidStreamIdentifierCause.SerializeTo, AllocateTLV, Store16At,
      storeBytesAt, store16, InvalidStreamIdentifierCause.kType,
      InvalidStreamIdentifierCause.kHeaderSize, padding4, List.replicate]
  refine ⟨hser, ?_, fun r6 r7 => ?_⟩
  · rw [hser]
    simp [InvalidStreamIdentifierCause.Parse, InvalidStreamIdentifierCause.kType,
      InvalidStreamIdentifierCause.kHeaderSize, ParseTLV, load16, load16At, padding4,
      List.getD_cons_succ, List.getD_cons_zero]
    omega
  · rw [hser]
    simp [InvalidStreamIdentifierCause.Parse, InvalidStreamIdentifierCause.kType,
      InvalidStreamIdentifierCause.kHeaderSize, ParseTLV, load16, load16At, padding4,
      List.getD_cons_succ, List.getD_cons_zero]
    omega

/-- Witness for C9 at the maximal stream identifier. -/
theorem invalidStreamIdentifierCause_roundtrip_witness :
    InvalidStreamIdentifierCause.SerializeTo ⟨65535⟩ =
      [0, 1, 0, 8, 255, 255, 0, 0] ∧
    InvalidStreamIdentifierCause.Parse (InvalidStreamIdentifierCause.SerializeTo ⟨65535⟩) =
      some ⟨65535⟩ :=
  ⟨(invalidStreamIdentifierCause_roundtrip 65535 (by decide)).1,
   (invalidStreamIdentifierCause_roundtrip 65535 (by decide)).2.1⟩

/-- C10: for every 32-bit re-configuration request sequence number, the
serialized `SSNTSNResetRequestParameter` is the 8-byte TLV with the sequence
number stored big-endian at offset 4, and parsing the serialized bytes yields
back the identical request sequence number. -/
theorem ssntsnResetRequest_roundtrip (sn : Nat) (h : sn < 4294967296) :
    (SSNTSNResetRequestParameter.SerializeTo ⟨sn⟩).length = 8 ∧
    SSNTSNResetRequestParameter.SerializeTo ⟨sn⟩ =
      store16 SSNTSNResetRequestParameter.kType ++ store16 8 ++ store32 sn ∧
    load32At (SSNTSNResetRequestParameter.SerializeTo ⟨sn⟩) 4 = sn ∧
    SSNTSNResetRequestParameter.Parse (SSNTSNResetRequestParameter.SerializeTo ⟨sn⟩) =
      some ⟨sn⟩ := by
  have hser : SSNTSNResetRequestParameter.SerializeTo ⟨sn⟩ =
      [0, 15, 0, 8, sn / 16777216 % 256, sn / 65536 % 256, sn / 256 % 256, sn % 256] := by
    simp [SSNTSNResetRequestParameter.SerializeTo, AllocateTLV, Store32At,
      storeBytesAt, store16, store32, SSNTSNResetRequestParameter.kType,
      SSNTSNResetRequestParameter.kHeaderSize, padding4, List.replicate]
  refine ⟨by rw [hser]; rfl,
    by rw [hser]; simp [store16, store32, SSNTSNResetRequestParameter.kType], ?_, ?_⟩
  · rw [hser]
    simp only [load32At, load32, List.getD_cons_succ, List.getD_cons_zero]
    omega
  · rw [hser]
    simp [SSNTSNResetRequestParameter.Parse, SSNTSNResetRequestParameter.kType,
      SSNTSNResetRequestParameter.kHeaderSize, ParseTLV, load16, load32At, load32,
      padding4, List.getD_cons_succ, List.getD_cons_zero]
    omega

/-- Witness for C10 at the maximal 32-bit request sequence number. -/
theorem ssntsnResetRequest_roundtrip_witness :
    SSNTSNResetRequestParameter.Parse
        (SSNTSNResetRequestParameter.SerializeTo ⟨4294967295⟩) =
      some ⟨4294967295⟩ :=
  (ssntsnResetRequest_roundtrip 4294967295 (by decide)).2.2.2

/-- Capability set negotiated during association setup, from
`net/dcsctp/socket/capabilities.h` as used by `state_cookie_test.cc`. -/
structure Capabilities where
  partial_reliability : Bool
  message_interleaving : Bool
  reconfig : Bool
  zero_checksum : Bool
  negotiated_maximum_incoming_streams : Nat
  negotiated_maximum_outgoing_streams : Nat
deriving DecidableEq, Repr

/-- Modelled from the spec: `state_cookie.h/.cc` is not among the analyzed
sources (only its unit test is). Per §4.8 / §3 the cookie is a snapshot of
{peer_tag, my_tag, peer_initial_tsn, my_initial_tsn, a_rwnd, tie_tag,
negotiated capabilities}. Tags, TSNs and a_rwnd are 32-bit, the tie tag is
64-bit, the stream counts are 16-bit. -/
structure StateCookie where
  peer_tag : Nat
  my_tag : Nat
  peer_initial_tsn : Nat
  my_initial_tsn : Nat
  a_rwnd : Nat
  tie_tag : Nat
  capabilities : Capabilities
deriving DecidableEq, Repr

namespace StateCookie

/-- The 8-byte magic marker "dcSCTP00" (ASCII), per `state_cookie_test.cc`. -/
def magicBytes : List Nat := [100, 99, 83, 67, 84, 80, 48, 48]

/-- Fixed serialized size: 8 (magic) + 5 * 4 (tags, TSNs, a_rwnd) + 8 (tie tag)
+ 4 (capability booleans) + 2 * 2 (stream counts). -/
def kCookieSize : Nat := 44

/-- Byte encoding of a capability boolean. -/
def boolByte (b : Bool) : Nat := if b then 1 else 0

/-- All fields within their wire widths. -/
def Valid (c : StateCookie) : Prop :=
  c.peer_tag < 4294967296 ∧ c.my_tag < 4294967296 ∧
  c.peer_initial_tsn < 4294967296 ∧ c.my_initial_tsn < 4294967296 ∧
  c.a_rwnd < 4294967296 ∧ c.tie_tag < 18446744073709551616 ∧
  c.capabilities.negotiated_maximum_incoming_streams < 65536 ∧
  c.capabilities.negotiated_maximum_outgoing_streams < 65536

instance (c : StateCookie) : Decidable c.Valid := by
  unfold Valid; infer_instance

/-- Modelled from the spec: `StateCookie::Serialize` (not among the analyzed
sources). §4.8 layout: 8-byte magic constant, verification tags (peer then
local), initial TSNs (peer then local), advertised window, tie tag, then the
negotiated capability bit-set and the negotiated stream-count limits. -/
def Serialize (c : StateCookie) : List Nat :=
  magicBytes ++ store32 c.peer_tag ++ store32 c.my_tag ++
    store32 c.peer_initial_tsn ++ store32 c.my_initial_tsn ++
    store32 c.a_rwnd ++ store64 c.tie_tag ++
    [boolByte c.capabilities.partial_reliability,
     boolByte c.capabilities.message_interleaving,
     boolByte c.capabilities.reconfig,
     boolByte c.capabilities.zero_checksum] ++
    store16 c.capabilities.negotiated_maximum_incoming_streams ++
    store16 c.capabilities.negotiated_maximum_outgoing_streams

/-- Modelled from the spec: `StateCookie::Deserialize` (not among the analyzed
sources). §4.8: fails closed (returns nothing) on size mismatch or magic
mismatch, never partially trusting a malformed cookie; otherwise reads the
fields back at their fixed offsets. -/
def Deserialize (data : List Nat) : Option StateCookie :=
  if data.length ≠ kCookieSize then none
  else if data.take 8 ≠ magicBytes then none
  else some
    { peer_tag := load32At data 8
      my_tag := load32At data 12
      peer_initial_tsn := load32At data 16
      my_initial_tsn := load32At data 20
      a_rwnd := load32At data 24
      tie_tag := load64At data 28
      capabilities :=
        { partial_reliability := data.getD 36 0 ≠ 0
          message_interleaving := data.getD 37 0 ≠ 0
          reconfig := data.getD 38 0 ≠ 0
          zero_checksum := data.getD 39 0 ≠ 0
          negotiated_maximum_incoming_streams := load16At data 40
          negotiated_maximum_outgoing_streams := load16At data 42 } }

/-- The concrete cookie built in `StateCookieTest.SerializeAndDeserialize`. -/
def testCookie : StateCookie :=
  { peer_tag := 123, my_tag := 321, peer_initial_tsn := 456, my_initial_tsn := 654
    a_rwnd := 789, tie_tag := 101112
    capabilities :=
      { partial_reliability := true, message_interleaving := false
        reconfig := true, zero_checksum := true
        negotiated_maximum_incoming_streams := 123
        negotiated_maximum_outgoing_streams := 234 } }

end StateCookie

example : (StateCookie.Serialize StateCookie.testCookie).length = 44 := by decide

example : StateCookie.Deserialize (StateCookie.Serialize StateCookie.testCookie) =
    some StateCookie.testCookie := by decide

/-- Serialized state cookies always have the fixed size `kCookieSize`. -/
theorem StateCookie.length_serialize (c : StateCookie) :
    (StateCookie.Serialize c).length = StateCookie.kCookieSize := by
  simp [StateCookie.Serialize, StateCookie.magicBytes, StateCookie.kCookieSize,
    store32, store64, store16]

/-- A capability byte decodes back to the boolean it encodes. -/
theorem StateCookie.decide_boolByte_eq (b : Bool) :
    (decide (StateCookie.boolByte b = 0)) = !b := by
  cases b <;> rfl

set_option maxHeartbeats 2000000 in
/-- C1: deserializing the result of serializing any valid state cookie yields a
cookie whose every field (peer_tag, my_tag, peer_initial_tsn, my_initial_tsn,
a_rwnd, tie_tag, and all capability fields including the negotiated maximum
incoming and outgoing stream counts) equals the original. -/
theorem stateCookie_serialize_deserialize_roundtrip (c : StateCookie) (h : c.Valid) :
    StateCookie.Deserialize (StateCookie.Serialize c) = some c := by
  rcases c with ⟨pt, mt, ptsn, mtsn, ar, tt, ⟨pr, mi, rc, zc, ni, no⟩⟩
  simp only [StateCookie.Valid] at h
  obtain ⟨h1, h2, h3, h4, h5, h6, h7, h8⟩ := h
  simp only [StateCookie.Serialize, StateCookie.magicBytes, store32, store64, store16,
    List.cons_append, List.nil_append]
  simp only [StateCookie.Deserialize, StateCookie.kCookieSize, load32At, load16At,
    load64At, load32, load16, List.length_cons, List.length_nil, List.take_succ_cons,
    List.take_zero, List.getD_cons_zero, List.getD_cons_succ]
  norm_num [StateCookie.decide_boolByte_eq, StateCookie.magicBytes]
  omega

/-- Witness for C1 at the concrete cookie of `StateCookieTest.SerializeAndDeserialize`. -/
theorem stateCookie_serialize_deserialize_roundtrip_witness :
    StateCookie.Deserialize (StateCookie.Serialize StateCookie.testCookie) =
      some StateCookie.testCookie :=
  stateCookie_serialize_deserialize_roundtrip StateCookie.testCookie (by decide)

/-- C2: `StateCookie::Deserialize` returns nothing on every strict prefix of a
serialized cookie, and on every input whose first 8 bytes are not the magic
marker. -/
theorem stateCookie_deserialize_fails_closed (c : StateCookie) (n : Nat)
    (hn : n < StateCookie.kCookieSize) (data : List Nat)
    (hm : data.take 8 ≠ StateCookie.magicBytes) :
    StateCookie.Deserialize ((StateCookie.Serialize c).take n) = none ∧
    StateCookie.Deserialize data = none := by
  constructor
  · have hlen : ((StateCookie.Serialize c).take n).length = n := by
      rw [List.length_take, StateCookie.length_serialize]
      omega
    unfold StateCookie.Deserialize
    rw [hlen]
    simp only [StateCookie.kCookieSize] at hn ⊢
    rw [if_pos (by omega)]
  · unfold StateCookie.Deserialize
    by_cases hL : data.length = StateCookie.kCookieSize
    · rw [if_neg (by omega), if_pos hm]
    · rw [if_pos hL]

/-- Witness for C2: a truncated test cookie and an input with a wrong magic
marker are both rejected. -/
theorem stateCookie_deserialize_fails_closed_witness :
    StateCookie.Deserialize ((StateCookie.Serialize StateCookie.testCookie).take 10) = none ∧
    StateCookie.Deserialize [] = none :=
  stateCookie_deserialize_fails_closed StateCookie.testCookie 10 (by decide) [] (by decide)

set_option maxHeartbeats 2000000 in
/-- C3: serialization of any valid state cookie has exactly `kCookieSize`
bytes; the leading 8 bytes are the ASCII magic marker "dcSCTP00"; and the
fields follow in order: verification tags (peer at offset 8, local at 12),
initial TSNs (peer at 16, local at 20), advertised window at 24, tie tag at
28, the capability bytes at 36..39, and the negotiated stream-count limits at
40 and 42. -/
theorem stateCookie_serialize_layout (c : StateCookie) (h : c.Valid) :
    (StateCookie.Serialize c).length = StateCookie.kCookieSize ∧
    (StateCookie.Serialize c).take 8 = StateCookie.magicBytes ∧
    StateCookie.magicBytes = "dcSCTP00".data.map Char.toNat ∧
    load32At (StateCookie.Serialize c) 8 = c.peer_tag ∧
    load32At (StateCookie.Serialize c) 12 = c.my_tag ∧
    load32At (StateCookie.Serialize c) 16 = c.peer_initial_tsn ∧
    load32At (StateCookie.Serialize c) 20 = c.my_initial_tsn ∧
    load32At (StateCookie.Serialize c) 24 = c.a_rwnd ∧
    load64At (StateCookie.Serialize c) 28 = c.tie_tag ∧
    (StateCookie.Serialize c).getD 36 0 = StateCookie.boolByte c.capabilities.partial_reliability ∧
    (StateCookie.Serialize c).getD 37 0 = StateCookie.boolByte c.capabilities.message_interleaving ∧
    (StateCookie.Serialize c).getD 38 0 = StateCookie.boolByte c.capabilities.reconfig ∧
    (StateCookie.Serialize c).getD 39 0 = StateCookie.boolByte c.capabilities.zero_checksum ∧
    load16At (StateCookie.Serialize c) 40 = c.capabilities.negotiated_maximum_incoming_streams ∧
    load16At (StateCookie.Serialize c) 42 = c.capabilities.negotiated_maximum_outgoing_streams := by
  rcases c with ⟨pt, mt, ptsn, mtsn, ar, tt, ⟨pr, mi, rc, zc, ni, no⟩⟩
  simp only [StateCookie.Valid] at h
  obtain ⟨h1, h2, h3, h4, h5, h6, h7, h8⟩ := h
  refine ⟨StateCookie.length_serialize _, ?_⟩
  simp only [StateCookie.Serialize, StateCookie.magicBytes, store32, store64, store16,
    List.cons_append, List.nil_append]
  simp only [load32At, load16At, load64At, load32, load16, List.take_succ_cons,
    List.take_zero, List.getD_cons_zero, List.getD_cons_succ]
  norm_num [StateCookie.magicBytes]
  refine ⟨by decide, ?_, ?_, ?_, ?_, ?_, ?_⟩ <;> omega

/-- Witness for C3 at the concrete cookie of the unit tests. -/
theorem stateCookie_serialize_layout_witness :
    (StateCookie.Serialize StateCookie.testCookie).take 8 = StateCookie.magicBytes ∧
    load32At (StateCookie.Serialize StateCookie.testCookie) 8 = 123 :=
  ⟨(stateCookie_serialize_layout StateCookie.testCookie (by decide)).2.1,
   (stateCookie_serialize_layout StateCookie.testCookie (by decide)).2.2.2.1⟩

/-- Modelled from the spec: the sequence-number arithmetic helpers
(`net/dcsctp/common/sequence_numbers.h`) are not among the analyzed sources.
Per §4.2 two TSNs are compared by modular subtraction, `a - b` cast to the
signed equivalent width: the unsigned 32-bit difference reinterpreted as a
signed 32-bit value. -/
def tsnDiff (a b : Nat) : Int :=
  let d := (a % 4294967296 + 4294967296 - b % 4294967296) % 4294967296
  if d < 2147483648 then (d : Int) else (d : Int) - 4294967296

/-- `LessThan` for 32-bit TSNs: the signed modular difference is negative. -/
def tsnLessThan (a b : Nat) : Bool := tsnDiff a b < 0

/-- `LessThanOrEqual` for 32-bit TSNs. -/
def tsnLessThanOrEqual (a b : Nat) : Bool := tsnDiff a b ≤ 0

/-- `Distance` for 32-bit TSNs: the unsigned difference modulo 2^32. -/
def tsnDistance (a b : Nat) : Nat :=
  (a % 4294967296 + 4294967296 - b % 4294967296) % 4294967296

/-- C6: across the 32-bit wraparound boundary the successor ordering is
preserved: for every TSN `a` and every step `0 < k < 2^31`, the TSN
`(a + k) mod 2^32` comes after `a` (`LessThan a ((a+k) mod 2^32)` holds and
`Distance` back to `a` is `k`); in particular `b = 0` comes after
`a = 2^32 - 1`. -/
theorem tsn_wraparound_order (a k : Nat) (ha : a < 4294967296) (hk0 : 0 < k)
    (hk : k < 2147483648) :
    tsnLessThan a ((a + k) % 4294967296) = true ∧
    tsnDistance ((a + k) % 4294967296) a = k := by
  constructor
  · simp only [tsnLessThan, tsnDiff, decide_eq_true_eq]
    split_ifs with h
    · exfalso
      omega
    · omega
  · simp only [tsnDistance]
    omega

/-- Witness for C6 at the wraparound boundary itself: `a = 2^32 - 1`,
`b = (a + 1) mod 2^32 = 0`. -/
theorem tsn_wraparound_order_witness :
    tsnLessThan 4294967295 ((4294967295 + 1) % 4294967296) = true ∧
    tsnDistance ((4294967295 + 1) % 4294967296) 4294967295 = 1 :=
  tsn_wraparound_order 4294967295 1 (by decide) (by decide) (by decide)

/-- Modelled from the spec: the receive-side Data Tracker (`data_tracker.cc`)
is not among the analyzed sources. Per §4.3 it records every received TSN and
maintains the cumulative ack point, the highest K such that all TSNs up to K
were observed, contiguous from the initial TSN. The state keeps the initial
TSN, the next expected TSN (cumulative ack point + 1) and the set of TSNs
received above the cumulative point. TSNs are modelled unwrapped. -/
structure DataTracker where
  init_tsn : Nat
  next_tsn : Nat
  additional_tsns : Finset Nat
deriving DecidableEq

/-- A fresh tracker expecting `i` as the first TSN. -/
def DataTracker.initial (i : Nat) : DataTracker := ⟨i, i, ∅⟩

/-- Advances the next expected TSN through the contiguous run of already
received TSNs, consuming them from the set. -/
def advanceWhile (next : Nat) (s : Finset Nat) : Nat × Finset Nat :=
  if h : next ∈ s then advanceWhile (next + 1) (s.erase next) else (next, s)
termination_by s.card
decreasing_by exact Finset.card_erase_lt_of_mem h

/-- `Observe(tsn)`: a duplicate or already-acked TSN changes nothing; the next
expected TSN advances the cumulative ack point through any contiguous run;
anything further ahead is recorded in the additional set. -/
def DataTracker.Observe (st : DataTracker) (tsn : Nat) : DataTracker :=
  if tsn < st.next_tsn then st
  else if tsn = st.next_tsn then
    { st with next_tsn := (advanceWhile (tsn + 1) (st.additional_tsns.erase tsn)).1
              additional_tsns := (advanceWhile (tsn + 1) (st.additional_tsns.erase tsn)).2 }
  else { st with additional_tsns := insert tsn st.additional_tsns }

/-- All TSNs the tracker has accounted for: the contiguous prefix plus the
additional set. -/
def DataTracker.observedSet (st : DataTracker) : Finset Nat :=
  Finset.Ico st.init_tsn st.next_tsn ∪ st.additional_tsns

/-- Tracker invariant: the next expected TSN is at least the initial one and
every recorded additional TSN lies strictly above it. -/
def DataTracker.Inv (st : DataTracker) : Prop :=
  st.init_tsn ≤ st.next_tsn ∧ ∀ x ∈ st.additional_tsns, st.next_tsn < x

/-- `advanceWhile` never moves the next expected TSN backwards. -/
theorem advanceWhile_le (next : Nat) (s : Finset Nat) :
    next ≤ (advanceWhile next s).1 := by
  induction next, s using advanceWhile.induct with
  | case1 next s h ih =>
    rw [advanceWhile, dif_pos h]
    omega
  | case2 next s h =>
    rw [advanceWhile, dif_neg h]

/-- `advanceWhile` converts exactly the consumed contiguous run back into the
set it started from. -/
theorem advanceWhile_union (next : Nat) (s : Finset Nat) :
    Finset.Ico next (advanceWhile next s).1 ∪ (advanceWhile next s).2 = s := by
  induction next, s using advanceWhile.induct with
  | case1 next s h ih =>
    rw [advanceWhile, dif_pos h]
    have h1 : next + 1 ≤ (advanceWhile (next + 1) (s.erase next)).1 :=
      advanceWhile_le _ _
    rw [← Nat.Ico_insert_succ_left (show next < (advanceWhile (next + 1) (s.erase next)).1 by
      omega)]
    rw [Finset.insert_union, ih, Finset.insert_erase h]
  | case2 next s h =>
    rw [advanceWhile, dif_neg h]
    simp

/-- After `advanceWhile`, every remaining set element is strictly above the
resulting next expected TSN. -/
theorem advanceWhile_gt (next : Nat) (s : Finset Nat) (hs : ∀ x ∈ s, next ≤ x) :
    ∀ x ∈ (advanceWhile next s).2, (advanceWhile next s).1 < x := by
  induction next, s using advanceWhile.induct with
  | case1 next s h ih =>
    rw [advanceWhile, dif_pos h]
    exact ih fun x hx => by
      have := hs x (Finset.mem_of_mem_erase hx)
      have := Finset.ne_of_mem_erase hx
      omega
  | case2 next s h =>
    rw [advanceWhile, dif_neg h]
    intro x hx
    have := hs x hx
    have : x ≠ next := fun he => h (he ▸ hx)
    omega

/-- `Observe` never changes the initial TSN. -/
theorem observe_init_tsn (st : DataTracker) (t : Nat) :
    (st.Observe t).init_tsn = st.init_tsn := by
  unfold DataTracker.Observe
  split_ifs <;> rfl

/-- `Observe` preserves the tracker invariant. -/
theorem observe_inv (st : DataTracker) (t : Nat) (h : st.Inv) : (st.Observe t).Inv := by
  obtain ⟨h1, h2⟩ := h
  unfold DataTracker.Observe
  split_ifs with ha hb
  · exact ⟨h1, h2⟩
  · constructor
    · show st.init_tsn ≤ (advanceWhile (t + 1) (st.additional_tsns.erase t)).1
      have := advanceWhile_le (t + 1) (st.additional_tsns.erase t)
      omega
    · intro x hx
      show (advanceWhile (t + 1) (st.additional_tsns.erase t)).1 < x
      refine advanceWhile_gt (t + 1) (st.additional_tsns.erase t) (fun y hy => ?_) x hx
      have hy1 := h2 y (Finset.mem_of_mem_erase hy)
      have hy2 := Finset.ne_of_mem_erase hy
      omega
  · refine ⟨h1, fun x hx => ?_⟩
    show st.next_tsn < x
    rcases Finset.mem_insert.mp hx with he | hm
    · omega
    · exact h2 x hm

/-- Inserting an element absorbs a prior erase of it under a union. -/
theorem insert_union_erase (t : Nat) (A B : Finset Nat) :
    insert t (A ∪ B.erase t) = insert t (A ∪ B) := by
  ext x
  by_cases hx : x = t <;> simp [hx]

/-- `Observe t` adds exactly `t` to the observed set (when `t` is at or above
the initial TSN) regardless of which branch ran. -/
theorem observe_observedSet (st : DataTracker) (t : Nat) (h : st.Inv) :
    (st.Observe t).observedSet =
      if st.init_tsn ≤ t then insert t st.observedSet else st.observedSet := by
  obtain ⟨h1, h2⟩ := h
  unfold DataTracker.Observe
  by_cases ha : t < st.next_tsn
  · rw [if_pos ha]
    by_cases hi : st.init_tsn ≤ t
    · rw [if_pos hi]
      have ht : t ∈ st.observedSet := by
        simp only [DataTracker.observedSet, Finset.mem_union, Finset.mem_Ico]
        exact Or.inl ⟨hi, ha⟩
      rw [Finset.insert_eq_self.mpr ht]
    · rw [if_neg hi]
  · rw [if_neg ha]
    by_cases hb : t = st.next_tsn
    · rw [if_pos hb, if_pos (show st.init_tsn ≤ t by omega)]
      have h1' : t + 1 ≤ (advanceWhile (t + 1) (st.additional_tsns.erase t)).1 :=
        advanceWhile_le _ _
      show Finset.Ico st.init_tsn (advanceWhile (t + 1) (st.additional_tsns.erase t)).1 ∪
          (advanceWhile (t + 1) (st.additional_tsns.erase t)).2 =
        insert t st.observedSet
      simp only [DataTracker.observedSet, ← hb]
      rw [← Finset.Ico_union_Ico_eq_Ico (show st.init_tsn ≤ t + 1 by omega) h1',
        Finset.union_assoc, advanceWhile_union,
        Nat.Ico_succ_right_eq_insert_Ico (show st.init_tsn ≤ t by omega),
        Finset.insert_union, insert_union_erase]
    · rw [if_neg hb, if_pos (show st.init_tsn ≤ t by omega)]
      show Finset.Ico st.init_tsn st.next_tsn ∪ insert t st.additional_tsns =
        insert t st.observedSet
      simp only [DataTracker.observedSet, Finset.union_insert]

/-- A whole sequence of `Observe` calls keeps the initial TSN. -/
theorem foldl_init_tsn (st : DataTracker) (l : List Nat) :
    (l.foldl DataTracker.Observe st).init_tsn = st.init_tsn := by
  induction l generalizing st with
  | nil => rfl
  | cons a l ih => rw [List.foldl_cons, ih, observe_init_tsn]

/-- A whole sequence of `Observe` calls preserves the invariant. -/
theorem foldl_inv (st : DataTracker) (l : List Nat) (h : st.Inv) :
    (l.foldl DataTracker.Observe st).Inv := by
  induction l generalizing st with
  | nil => exact h
  | cons a l ih => exact ih _ (observe_inv st a h)

/-- After a sequence of `Observe` calls the observed set is the initial one
plus every observed TSN at or above the initial TSN. -/
theorem foldl_observedSet (st : DataTracker) (l : List Nat) (h : st.Inv) :
    (l.foldl DataTracker.Observe st).observedSet =
      st.observedSet ∪ l.toFinset.filter (st.init_tsn ≤ ·) := by
  induction l generalizing st with
  | nil => simp
  | cons a l ih =>
    rw [List.foldl_cons, ih _ (observe_inv st a h), observe_init_tsn,
      observe_observedSet st a h, List.toFinset_cons, Finset.filter_insert]
    split_ifs with ha
    · rw [Finset.insert_union, Finset.union_insert]
    · rfl

/-- Under the invariant, the next expected TSN is characterized by the
observed set: `k` is below it exactly when the whole range from the initial
TSN to `k` has been observed. -/
theorem next_tsn_char (st : DataTracker) (h : st.Inv) (k : Nat) :
    k < st.next_tsn ↔ ∀ t, st.init_tsn ≤ t → t ≤ k → t ∈ st.observedSet := by
  obtain ⟨h1, h2⟩ := h
  constructor
  · intro hk t hti htk
    simp only [DataTracker.observedSet, Finset.mem_union, Finset.mem_Ico]
    exact Or.inl ⟨hti, by omega⟩
  · intro hall
    by_contra hnk
    have := hall st.next_tsn h1 (by omega)
    simp only [DataTracker.observedSet, Finset.mem_union, Finset.mem_Ico] at this
    rcases this with ⟨_, hlt⟩ | hm
    · omega
    · exact absurd (h2 _ hm) (by omega)

/-- The cumulative ack point after observing a list of TSNs is characterized
by plain list membership. -/
theorem cumAck_char (i : Nat) (l : List Nat) (k : Nat) :
    k < (l.foldl DataTracker.Observe (DataTracker.initial i)).next_tsn ↔
      ∀ t, i ≤ t → t ≤ k → t ∈ l := by
  have hinv : (DataTracker.initial i).Inv := ⟨le_refl i, by simp [DataTracker.initial]⟩
  have hinit : (DataTracker.initial i).observedSet = ∅ := by
    simp [DataTracker.observedSet, DataTracker.initial]
  rw [next_tsn_char _ (foldl_inv _ _ hinv) k, foldl_observedSet _ _ hinv, hinit]
  simp only [Finset.empty_union]
  constructor
  · intro hall t hti htk
    have h := hall t (by rw [foldl_init_tsn]; exact hti) htk
    simp only [Finset.mem_filter, List.mem_toFinset] at h
    exact h.1
  · intro hall t hti htk
    rw [foldl_init_tsn] at hti
    simp only [Finset.mem_filter, List.mem_toFinset]
    exact ⟨hall t hti htk, hti⟩

/-- C7: for every finite sequence of `Observe(tsn)` calls, the cumulative ack
point (`next_tsn - 1`) is the largest K with every TSN from the initial TSN up
to K observed — stated as: `k < next_tsn` iff all of `i..k` were observed —
and the result depends only on the set of observed TSNs, not on the order or
multiplicity of the calls. -/
theorem dataTracker_cumulative_ack_point (i : Nat) (l : List Nat) :
    (∀ k, k < (l.foldl DataTracker.Observe (DataTracker.initial i)).next_tsn ↔
      ∀ t, i ≤ t → t ≤ k → t ∈ l) ∧
    (∀ l2 : List Nat, l.toFinset = l2.toFinset →
      (l.foldl DataTracker.Observe (DataTracker.initial i)).next_tsn =
        (l2.foldl DataTracker.Observe (DataTracker.initial i)).next_tsn) := by
  refine ⟨cumAck_char i l, fun l2 hf => ?_⟩
  have hmem : ∀ t, t ∈ l ↔ t ∈ l2 := by
    intro t
    rw [← List.mem_toFinset, ← List.mem_toFinset, hf]
  have key : ∀ k, k < (l.foldl DataTracker.Observe (DataTracker.initial i)).next_tsn ↔
      k < (l2.foldl DataTracker.Observe (DataTracker.initial i)).next_tsn := by
    intro k
    rw [cumAck_char i l k, cumAck_char i l2 k]
    constructor <;> intro hall t hti htk
    · exact (hmem t).mp (hall t hti htk)
    · exact (hmem t).mpr (hall t hti htk)
  have h1 := key (l.foldl DataTracker.Observe (DataTracker.initial i)).next_tsn
  have h2 := key (l2.foldl DataTracker.Observe (DataTracker.initial i)).next_tsn
  omega


/-- Witness for C7: observing `[5, 2, 1, 3]` from initial TSN 1 acks 1..3, and
a permuted list with duplicates yields the same cumulative ack point. -/
theorem dataTracker_cumulative_ack_point_witness :
    (3 < ([5, 2, 1, 3].foldl DataTracker.Observe (DataTracker.initial 1)).next_tsn ↔
      ∀ t, 1 ≤ t → t ≤ 3 → t ∈ [5, 2, 1, 3]) ∧
    ([5, 2, 1, 3].foldl DataTracker.Observe (DataTracker.initial 1)).next_tsn =
      ([3, 1, 2, 5, 5].foldl DataTracker.Observe (DataTracker.initial 1)).next_tsn :=
  ⟨(dataTracker_cumulative_ack_point 1 [5, 2, 1, 3]).1 3,
   (dataTracker_cumulative_ack_point 1 [5, 2, 1, 3]).2 [3, 1, 2, 5, 5] (by decide)⟩

/-- Chunk types dispatched by the association socket (§4.9, §6). -/
inductive ChunkType
  | init
  | initAck
  | cookieEcho
  | cookieAck
  | data
  | sack
  | heartbeatReq
  | heartbeatAck
  | abort
  | shutdown
  | error
deriving DecidableEq, Repr

/-- An incoming packet: the common header's verification tag and (modelled with
one chunk per packet) the chunk it carries. -/
structure Packet where
  verification_tag : Nat
  chunk : ChunkType
deriving DecidableEq, Repr

/-- The association lifecycle states of §4.9. -/
inductive SocketState
  | closed
  | cookieWait
  | cookieEchoed
  | established
  | shutdownPending
  | shutdownSent
  | shutdownAckSent
deriving DecidableEq, Repr

/-- Modelled from the spec: the association state machine
(`dcsctp_socket.cc`) is not among the analyzed sources. Per §3/§4.9 the
association holds the lifecycle state, the verification tag expected on
inbound packets, the peer's tag used on outbound packets, and its processing
side effects (here: a count of processed DATA chunks standing in for the
receive pipeline). -/
structure Association where
  state : SocketState
  my_verification_tag : Nat
  peer_verification_tag : Nat
  received_chunks : Nat
deriving DecidableEq, Repr

/-- Modelled from the spec: chunks explicitly tag-exempt during setup (§4.9) —
the COOKIE ECHO completing the handshake is validated through the cookie's own
tag material rather than the packet tag. -/
def tagExemptDuringSetup : ChunkType → Bool
  | ChunkType.cookieEcho => true
  | _ => false

/-- Modelled from the spec: chunk dispatch after tag validation (§4.9): DATA
is handed to the receive side, COOKIE ECHO / COOKIE ACK complete the
handshake, ABORT closes immediately, SHUTDOWN advances the teardown path;
other chunks do not change the modelled state. -/
def Dispatch (a : Association) (p : Packet) : Association :=
  match p.chunk with
  | ChunkType.data => { a with received_chunks := a.received_chunks + 1 }
  | ChunkType.cookieEcho => { a with state := SocketState.established }
  | ChunkType.cookieAck =>
    if a.state = SocketState.cookieEchoed then { a with state := SocketState.established }
    else a
  | ChunkType.abort => { a with state := SocketState.closed }
  | ChunkType.shutdown => { a with state := SocketState.shutdownAckSent }
  | _ => a

/-- Modelled from the spec: `HandlePacket` tag validation (§4.9): the very
first INIT of a new association (state Closed, issuing a cookie statelessly
and recording the peer's tag) is processed without a tag match; setup-exempt
chunks are dispatched; any other packet whose verification tag differs from
the association's expected tag is silently discarded without processing. -/
def HandlePacket (a : Association) (p : Packet) : Association :=
  if p.chunk = ChunkType.init ∧ a.state = SocketState.closed then
    { a with peer_verification_tag := p.verification_tag }
  else if tagExemptDuringSetup p.chunk then Dispatch a p
  else if p.verification_tag ≠ a.my_verification_tag then a
  else Dispatch a p

/-- C8: processing a packet whose verification tag does not equal the
association's expected tag leaves the association state unchanged (silent
discard), with the sole exceptions of the very first INIT of a new
association and chunks explicitly tag-exempt during setup. -/
theorem verification_tag_mismatch_discards (a : Association) (p : Packet)
    (hmismatch : p.verification_tag ≠ a.my_verification_tag)
    (hnotinit : ¬(p.chunk = ChunkType.init ∧ a.state = SocketState.closed))
    (hnotexempt : tagExemptDuringSetup p.chunk = false) :
    HandlePacket a p = a := by
  unfold HandlePacket
  rw [if_neg hnotinit, if_neg (by simp [hnotexempt]), if_pos hmismatch]

/-- Witness for C8: a DATA chunk with a wrong tag against an established
association is discarded without any state change. -/
theorem verification_tag_mismatch_discards_witness :
    HandlePacket ⟨SocketState.established, 111, 222, 0⟩ ⟨999, ChunkType.data⟩ =
      ⟨SocketState.established, 111, 222, 0⟩ :=
  verification_tag_mismatch_discards ⟨SocketState.established, 111, 222, 0⟩
    ⟨999, ChunkType.data⟩ (by decide) (by decide) (by decide)

end Dcsctp
